import Mathlib

/-! Verification development.
Verification of the `pomod` Pomodoro timer (src/main.rs) against its
natural-language specification.  The Rust program is shallowly embedded:
`Instant` timestamps and `Duration`s become `Nat` (seconds), `Option` stays
`Option`, and the mutable `Timer` becomes explicit state passing.  Each
operation that reads the wall clock takes the current time as an extra
`now : Nat` argument.  `poll` additionally returns the list of notifications
it emits (the real program shows them through `notify_rust`).
-/

/-- Rust `const POMODORO_TIME: u64 = 25 * 60;` (seconds). -/
def POMODORO_TIME : Nat := 25 * 60

/-- Rust `const SHORT_BREAK_TIME: u64 = 5 * 60;` (seconds). -/
def SHORT_BREAK_TIME : Nat := 5 * 60

/-- Rust `const LONG_BREAK_TIME: u64 = 30 * 60;` (seconds). -/
def LONG_BREAK_TIME : Nat := 30 * 60

/-- Rust `const BREAK_CYCLE: u8 = 4;` -/
def BREAK_CYCLE : Nat := 4

/-- Rust `enum TimerState { None, Pomodoro, ShortBreak, LongBreak }` -/
inductive TimerState where
  | none
  | pomodoro
  | shortBreak
  | longBreak
deriving DecidableEq, Repr

/-- Rust `TimerState::time`: the fixed duration of each phase, in seconds. -/
def TimerState.time : TimerState → Nat
  | .none | .pomodoro => POMODORO_TIME
  | .shortBreak => SHORT_BREAK_TIME
  | .longBreak => LONG_BREAK_TIME

/-- Rust `TimerState::pomicon`: the one-glyph status icon of each phase. -/
def TimerState.pomicon : TimerState → String
  | .none => ""
  | .pomodoro => ""
  | .shortBreak => ""
  | .longBreak => ""

/-- Rust `TimerState::next`: the phase transition.  The Rust function mutates
`self` and `break_counter`; here it returns the pair (new state, new
counter).  The counter is only touched when leaving `Pomodoro`, where it
becomes `(break_counter + 1) % BREAK_CYCLE`. -/
def TimerState.next : TimerState → Nat → TimerState × Nat
  | .none, bc => (.pomodoro, bc)
  | .pomodoro, bc =>
      (if bc < BREAK_CYCLE - 1 then .shortBreak else .longBreak,
       (bc + 1) % BREAK_CYCLE)
  | .shortBreak, bc => (.pomodoro, bc)
  | .longBreak, bc => (.pomodoro, bc)

/-- A desktop notification: `Notification::new().summary(..).body(..)`. -/
structure Notif where
  summary : String
  body : String
deriving DecidableEq, Repr

/-- Rust `struct Timer`, with `Instant` and `Duration` rendered as `Nat`. -/
structure Timer where
  running : Bool
  state : TimerState
  state_start_time : Option Nat
  remaining_time : Option Nat
  last_poll : Nat
  break_counter : Nat
deriving DecidableEq, Repr

/-- Rust `Timer::new()`; `now` stands for the `Instant::now()` call. -/
def Timer.new (now : Nat) : Timer :=
  { running := false
    state := .none
    state_start_time := Option.none
    remaining_time := some (TimerState.time .none)
    last_poll := now
    break_counter := 0 }

/-- Rust `Timer::begin_next_state`: advance the phase and reset the remaining
time to the duration of the new phase. -/
def Timer.begin_next_state (t : Timer) : Timer :=
  let sb := t.state.next t.break_counter
  { t with state := sb.1, break_counter := sb.2, remaining_time := some sb.1.time }

/-- Rust `Timer::start`.  A no-op when already running; on the very first start
(`state_start_time` still unset) it records the start time and performs the
first phase transition; in every non-running case it sets `running`. -/
def Timer.start (t : Timer) (now : Nat) : Timer :=
  if !t.running then
    let t2 :=
      if t.state_start_time.isNone then
        Timer.begin_next_state { t with state_start_time := some now }
      else t
    { t2 with running := true }
  else t

/-- Rust `Timer::stop`. -/
def Timer.stop (t : Timer) : Timer :=
  if t.running then { t with running := false } else t

/-- Rust `Timer::toggle`. -/
def Timer.toggle (t : Timer) (now : Nat) : Timer :=
  if !t.running then t.start now else t.stop

/-- Rust `Duration::checked_sub`: `d - e`, or `None` when the result would be
negative (that is, when `e > d`; at `e = d` it is `some 0`). -/
def checkedSub (d e : Nat) : Option Nat :=
  if e ≤ d then some (d - e) else Option.none

/-- The `match self.state` inside `Timer::poll` that picks the phase name
for the notification body. -/
def pollBodyName : TimerState → String
  | .none => "none? how did this happen?"
  | .pomodoro => "pomodoro"
  | .shortBreak => "short break"
  | .longBreak => "long break"

/-- Rust `Timer::poll`.  Returns the updated timer and the notifications shown
during the call.  `now` stands for `Instant::now()`; `now - t.last_poll` is
the elapsed `Duration` (the `Instant` subtraction of Rust never goes below
zero, matching `Nat` subtraction). -/
def Timer.poll (t : Timer) (now : Nat) : Timer × List Notif :=
  if t.running then
    match t.remaining_time with
    | Option.none =>
        let t2 := t.begin_next_state
        ({ t2 with last_poll := now },
         [{ summary := "pomod: time is up"
            body := "next up: " ++ pollBodyName t2.state }])
    | some d =>
        ({ t with remaining_time := checkedSub d (now - t.last_poll)
                  last_poll := now }, [])
  else
    ({ t with last_poll := now }, [])

/-- Rust `fn minutes(duration: &Duration) -> u64` on a duration in seconds. -/
def minutes (d : Nat) : Nat := d / 60

/-- Rust `fn seconds(duration: &Duration) -> u64` on a duration in seconds. -/
def seconds (d : Nat) : Nat := d % 60

/-- The Rust `{:02}` format: decimal, zero-padded to a minimum of two
digits. -/
def pad2 (n : Nat) : String :=
  if n < 10 then "0" ++ Nat.repr n else Nat.repr n

/-- The `format!(" {:02}:{:02}", minutes(..), seconds(..))` expression of
the main loop. -/
def timePart (d : Nat) : String :=
  " " ++ pad2 (minutes d) ++ ":" ++ pad2 (seconds d)

/-- The status line built by the main loop: the phase glyph followed by the
formatted remaining time, where a `None` remaining time is replaced by
`Duration::new(0, 0)` (`unwrap_or`). -/
def statusLine (t : Timer) : String :=
  t.state.pomicon ++ timePart (t.remaining_time.getD 0)

/-- The (state, break counter) pair after `n` calls of `next`, starting
from `(None, 0)` as `Timer::new` does. -/
def stepN : Nat → TimerState × Nat
  | 0 => (.none, 0)
  | n + 1 => (stepN n).1.next (stepN n).2

/-- The phase produced by call number `n` (0-based): the first call yields
`phaseAt 0 = Pomodoro`. -/
def phaseAt (n : Nat) : TimerState := (stepN (n + 1)).1

/-- The 8-entry cycle that `stepN` settles into after the first call. -/
def cycleTab : Nat → TimerState × Nat
  | 0 => (.pomodoro, 0)
  | 1 => (.shortBreak, 1)
  | 2 => (.pomodoro, 1)
  | 3 => (.shortBreak, 2)
  | 4 => (.pomodoro, 2)
  | 5 => (.shortBreak, 3)
  | 6 => (.pomodoro, 3)
  | 7 => (.longBreak, 0)
  | _ + 8 => (.pomodoro, 0)

lemma cycleTab_step (k : Nat) (hk : k < 8) :
    (cycleTab k).1.next (cycleTab k).2 = cycleTab ((k + 1) % 8) := by
  interval_cases k <;> decide

lemma stepN_eq_cycleTab (m : Nat) : stepN (m + 1) = cycleTab (m % 8) := by
  induction m with
  | zero => decide
  | succ m ih =>
      have hlt : m % 8 < 8 := Nat.mod_lt _ (by decide)
      have : stepN (m + 2) = (stepN (m + 1)).1.next (stepN (m + 1)).2 := rfl
      rw [this, ih, cycleTab_step _ hlt]
      congr 1
      omega

lemma next_fst_ne_none (s : TimerState) (bc : Nat) :
    (s.next bc).1 ≠ TimerState.none := by
  cases s <;> simp only [TimerState.next] <;> (try split) <;> simp

lemma stop_eq (t : Timer) : t.stop = { t with running := false } := by
  obtain ⟨run, st, sst, rem, lp, bc⟩ := t
  cases run <;> rfl

lemma start_of_running (t : Timer) (n : Nat) (h : t.running = true) :
    t.start n = t := by
  unfold Timer.start
  rw [h]
  rfl

/-- C2 (amended): starting from `(None, 0)`, the phase sequence produced by
successive `next` calls is `Pomodoro, ShortBreak, Pomodoro, ShortBreak,
Pomodoro, ShortBreak, Pomodoro, LongBreak` and then repeats with period 8
(four work intervals per cycle: three short breaks, then one long
break). -/
theorem claim_c2 :
    (∀ n, phaseAt (n + 8) = phaseAt n) ∧
    [phaseAt 0, phaseAt 1, phaseAt 2, phaseAt 3,
     phaseAt 4, phaseAt 5, phaseAt 6, phaseAt 7] =
      [.pomodoro, .shortBreak, .pomodoro, .shortBreak,
       .pomodoro, .shortBreak, .pomodoro, .longBreak] := by
  constructor
  · intro n
    unfold phaseAt
    rw [stepN_eq_cycleTab, stepN_eq_cycleTab]
    have h : (n + 8) % 8 = n % 8 := by omega
    rw [h]
  · decide

/-- C2 as literally stated is false: the sixth phase (index 5) is a short
break, not the long break the claimed prefix `Work, ShortBreak, Work,
ShortBreak, Work, LongBreak` places there. -/
theorem claim_c2_cex :
    phaseAt 5 = TimerState.shortBreak ∧ phaseAt 5 ≠ TimerState.longBreak := by
  decide

/-- C4: along the trace from `(None, 0)`, the break counter is always in
`[0, 4)`, and a call chooses the long break exactly when it moves the
counter (back) to 0 from a different value. -/
theorem claim_c4 :
    ∀ n, (stepN n).2 < 4 ∧
      (phaseAt n = TimerState.longBreak ↔
        ((stepN (n + 1)).2 = 0 ∧ (stepN (n + 1)).2 ≠ (stepN n).2)) := by
  intro n
  match n with
  | 0 => decide
  | m + 1 =>
      unfold phaseAt
      rw [stepN_eq_cycleTab m, stepN_eq_cycleTab (m + 1)]
      have h : (m + 1) % 8 = (m % 8 + 1) % 8 := by omega
      rw [h]
      have hk : m % 8 < 8 := Nat.mod_lt _ (by decide)
      set k := m % 8 with hkdef
      interval_cases k <;> decide

/-- C3: `next` is total over the four variants: `None` maps to `Pomodoro`
and `ShortBreak`/`LongBreak` map to `Pomodoro` with the counter untouched;
`Pomodoro` maps to `ShortBreak` when the counter is below
`BREAK_CYCLE - 1` and to `LongBreak` otherwise, the counter becoming
`(bc + 1) % BREAK_CYCLE` in both cases. -/
theorem claim_c3 (bc : Nat) :
    TimerState.next .none bc = (.pomodoro, bc) ∧
    TimerState.next .shortBreak bc = (.pomodoro, bc) ∧
    TimerState.next .longBreak bc = (.pomodoro, bc) ∧
    (bc < BREAK_CYCLE - 1 →
      TimerState.next .pomodoro bc = (.shortBreak, (bc + 1) % BREAK_CYCLE)) ∧
    (¬ bc < BREAK_CYCLE - 1 →
      TimerState.next .pomodoro bc = (.longBreak, (bc + 1) % BREAK_CYCLE)) := by
  refine ⟨rfl, rfl, rfl, ?_, ?_⟩ <;> intro h <;> simp only [TimerState.next]
  · rw [if_pos h]
  · rw [if_neg h]

/-- Witness for C3 at counter values 1 (short break) and 3 (long break). -/
theorem claim_c3_witness :
    TimerState.next .pomodoro 1 = (.shortBreak, (1 + 1) % BREAK_CYCLE) ∧
    TimerState.next .pomodoro 3 = (.longBreak, (3 + 1) % BREAK_CYCLE) :=
  ⟨(claim_c3 1).2.2.2.1 (by decide), (claim_c3 3).2.2.2.2 (by decide)⟩

/-- C10: `next` never produces the `None` variant, the first `start` of a
fresh timer leaves the state non-`None`, and `start`, `stop`, `poll` and
`toggle` all preserve a non-`None` state. -/
theorem claim_c10 :
    (∀ (s : TimerState) (bc : Nat), (s.next bc).1 ≠ TimerState.none) ∧
    (∀ n0 n1 : Nat, ((Timer.new n0).start n1).state ≠ TimerState.none) ∧
    (∀ (t : Timer) (n : Nat), t.state ≠ TimerState.none →
      ((t.start n).state ≠ TimerState.none ∧
       t.stop.state = t.state ∧
       (t.poll n).1.state ≠ TimerState.none ∧
       (t.toggle n).state ≠ TimerState.none)) := by
  refine ⟨next_fst_ne_none, ?_, ?_⟩
  · intro n0 n1
    simp [Timer.new, Timer.start, Timer.begin_next_state, TimerState.next]
  · intro t n ht
    have hstart : (t.start n).state ≠ TimerState.none := by
      unfold Timer.start
      split
      · split
        · exact next_fst_ne_none _ _
        · exact ht
      · exact ht
    have hstop : t.stop.state = t.state := by rw [stop_eq]
    have hpoll : (t.poll n).1.state ≠ TimerState.none := by
      unfold Timer.poll
      split
      · cases hrem : t.remaining_time with
        | none => simpa [Timer.begin_next_state] using next_fst_ne_none t.state t.break_counter
        | some d => simpa [hrem] using ht
      · exact ht
    have htoggle : (t.toggle n).state ≠ TimerState.none := by
      unfold Timer.toggle
      split
      · exact hstart
      · rw [hstop]; exact ht
    exact ⟨hstart, hstop, hpoll, htoggle⟩

/-- Witness for C10 on a concrete running timer in the `Pomodoro` phase. -/
theorem claim_c10_witness :
    ((Timer.mk true .pomodoro (some 0) (some 5) 0 0).start 7).state ≠ TimerState.none ∧
    (Timer.mk true .pomodoro (some 0) (some 5) 0 0).stop.state =
      (Timer.mk true .pomodoro (some 0) (some 5) 0 0).state ∧
    ((Timer.mk true .pomodoro (some 0) (some 5) 0 0).poll 7).1.state ≠ TimerState.none ∧
    ((Timer.mk true .pomodoro (some 0) (some 5) 0 0).toggle 7).state ≠ TimerState.none :=
  claim_c10.2.2 (Timer.mk true .pomodoro (some 0) (some 5) 0 0) 7 (by decide)

/-- C8: the `time` function maps both `None` and `Pomodoro` to 25 minutes,
`ShortBreak` to 5 minutes, and `LongBreak` to 30 minutes. -/
theorem claim_c8 :
    TimerState.time .none = 25 * 60 ∧
    TimerState.time .pomodoro = 25 * 60 ∧
    TimerState.time .shortBreak = 5 * 60 ∧
    TimerState.time .longBreak = 30 * 60 := by
  refine ⟨rfl, rfl, rfl, rfl⟩

/-- C9: the status line is the glyph followed by `" MM:SS"` with
`minutes = total_seconds / 60` and `seconds = total_seconds % 60`, each
zero-padded to two digits and with no hour field; 754 seconds renders as
the suffix `" 12:34"`, and a `None` remaining time as `" 00:00"`. -/
theorem claim_c9 :
    (∀ d : Nat, minutes d = d / 60 ∧ seconds d = d % 60) ∧
    (∀ d : Nat, timePart d = " " ++ pad2 (d / 60) ++ ":" ++ pad2 (d % 60)) ∧
    (∀ t : Timer, statusLine t = t.state.pomicon ++ timePart (t.remaining_time.getD 0)) ∧
    timePart 754 = " 12:34" ∧
    (∀ t : Timer, t.remaining_time = Option.none →
      statusLine t = t.state.pomicon ++ " 00:00") := by
  refine ⟨fun d => ⟨rfl, rfl⟩, fun d => rfl, fun t => rfl, by decide, ?_⟩
  intro t h
  unfold statusLine
  rw [h]
  rfl

/-- Witness for C9 on a timer whose remaining time is `None`. -/
theorem claim_c9_witness :
    statusLine (Timer.mk false .pomodoro Option.none Option.none 0 0) =
      TimerState.pomodoro.pomicon ++ " 00:00" :=
  claim_c9.2.2.2.2 (Timer.mk false .pomodoro Option.none Option.none 0 0) rfl

/-- C5 (amended): a poll on a non-running timer only updates `last_poll`
(state, remaining time and break counter are untouched and nothing is
notified); consequently after `stop`, a poll while stopped at time `tn`,
`start` at time `ts`, and a poll at time `tp`, the remaining time has
decreased by exactly `tp - tn` — the time since the last poll while
stopped — and not by the full stopped duration.  (The decrease is not
bounded by `tp - ts`, the time between `start` and the following poll:
the slack of up to one polling tick between `tn` and `ts` counts too.) -/
theorem claim_c5 :
    (∀ (t : Timer) (now : Nat), t.running = false →
      t.poll now = ({ t with last_poll := now }, [])) ∧
    (∀ (t : Timer) (r s0 tn ts tp : Nat), t.remaining_time = some r →
      t.state_start_time = some s0 →
      (((t.stop.poll tn).1.start ts).poll tp).1.remaining_time =
        checkedSub r (tp - tn)) := by
  constructor
  · intro t now h
    unfold Timer.poll
    rw [h]
    simp
  · intro t r s0 tn ts tp hr hsst
    obtain ⟨run, st, sst, rem, lp, bc⟩ := t
    simp only [Timer.remaining_time] at hr
    simp only [Timer.state_start_time] at hsst
    subst hr hsst
    cases run <;> simp [Timer.stop, Timer.start, Timer.poll]

/-- Witness for C5: the frame part on a concrete stopped timer, and the
stop/poll/start/poll trace on a concrete running timer. -/
theorem claim_c5_witness :
    (Timer.mk false .pomodoro (some 0) (some 10) 0 0).poll 4 =
      ({ Timer.mk false .pomodoro (some 0) (some 10) 0 0 with last_poll := 4 }, []) ∧
    (((((Timer.mk true .pomodoro (some 0) (some 10) 0 0).stop.poll 1).1.start 2).poll 5).1.remaining_time =
      checkedSub 10 (5 - 1)) :=
  ⟨claim_c5.1 (Timer.mk false .pomodoro (some 0) (some 10) 0 0) 4 rfl,
   claim_c5.2 (Timer.mk true .pomodoro (some 0) (some 10) 0 0) 10 0 1 2 5 rfl rfl⟩

/-- C5 as literally stated is false: with the last stopped poll at time 0,
`start` at time 2 and the next poll at time 3, the remaining time drops
from 10 to 7 — a decrease of 3, strictly more than the one unit of time
that elapsed between the `start` and the following poll. -/
theorem claim_c5_cex :
    (((((Timer.mk true .pomodoro (some 0) (some 10) 0 0).stop.poll 0).1.start 2).poll 3).1.remaining_time =
      some 7) ∧ (7 : Nat) < 10 - (3 - 2) := by
  refine ⟨by decide, by decide⟩

/-- C7: `start` is idempotent — a second `start` with no intervening
`stop` changes nothing — and a `start` of a stopped timer whose first
start already happened only sets `running`, with no phase transition and
no reset of the remaining time. -/
theorem claim_c7 :
    (∀ (t : Timer) (n m : Nat), (t.start n).start m = t.start n) ∧
    (∀ (t : Timer) (n s0 : Nat), t.running = false →
      t.state_start_time = some s0 →
      t.start n = { t with running := true }) := by
  constructor
  · intro t n m
    by_cases h : t.running = true
    · rw [start_of_running t n h, start_of_running t m h]
    · have h2 : (t.start n).running = true := by
        unfold Timer.start
        rw [Bool.not_eq_true] at h
        rw [h]
        rfl
      exact start_of_running (t.start n) m h2
  · intro t n s0 hrun hsst
    unfold Timer.start
    rw [hrun]
    simp [hsst]

/-- Witness for the stopped-restart part of C7 on a concrete timer. -/
theorem claim_c7_witness :
    (Timer.mk false .pomodoro (some 3) (some 10) 0 1).start 5 =
      { Timer.mk false .pomodoro (some 3) (some 10) 0 1 with running := true } :=
  claim_c7.2 (Timer.mk false .pomodoro (some 3) (some 10) 0 1) 5 3 rfl rfl

/-- C1 (amended): while running, a poll with `remaining_time = some d`
sets the remaining time to `checked_sub d elapsed` and notifies nothing:
`None` exactly when `elapsed > d` (never a negative value; at
`elapsed = d` the result is `some 0`, not `None`); a poll with
`remaining_time = None` advances the phase via `next`, resets the
remaining time to the duration of the new phase, and fires exactly one
notification whose body names the newly begun phase. -/
theorem claim_c1 :
    (∀ (t : Timer) (d now : Nat), t.running = true → t.remaining_time = some d →
      ((t.poll now).1.remaining_time = checkedSub d (now - t.last_poll) ∧
       (t.poll now).2 = [] ∧
       (d < now - t.last_poll → (t.poll now).1.remaining_time = Option.none) ∧
       (now - t.last_poll ≤ d →
         (t.poll now).1.remaining_time = some (d - (now - t.last_poll))))) ∧
    (∀ (t : Timer) (now : Nat), t.running = true → t.remaining_time = Option.none →
      ((t.poll now).1.state = (t.state.next t.break_counter).1 ∧
       (t.poll now).1.break_counter = (t.state.next t.break_counter).2 ∧
       (t.poll now).1.remaining_time = some (t.state.next t.break_counter).1.time ∧
       (t.poll now).2 = [{ summary := "pomod: time is up"
                           body := "next up: " ++
                             pollBodyName (t.state.next t.break_counter).1 }])) := by
  constructor
  · intro t d now hrun hrem
    unfold Timer.poll
    rw [hrun, hrem]
    refine ⟨by simp, by simp, ?_, ?_⟩ <;> intro h <;> simp [checkedSub] <;> omega
  · intro t now hrun hrem
    unfold Timer.poll
    rw [hrun, hrem]
    simp [Timer.begin_next_state]

/-- Witness for C1: a running poll with 20 elapsed of 200 remaining, and
an exhausted poll that transitions and notifies. -/
theorem claim_c1_witness :
    ((Timer.mk true .pomodoro (some 0) (some 200) 10 0).poll 30).1.remaining_time =
      checkedSub 200 (30 - 10) ∧
    ((Timer.mk true .pomodoro (some 0) Option.none 10 2).poll 30).2 =
      [{ summary := "pomod: time is up"
         body := "next up: " ++ pollBodyName (TimerState.pomodoro.next 2).1 }] :=
  ⟨(claim_c1.1 (Timer.mk true .pomodoro (some 0) (some 200) 10 0) 200 30 rfl rfl).1,
   (claim_c1.2 (Timer.mk true .pomodoro (some 0) Option.none 10 2) 30 rfl rfl).2.2.2⟩

/-- C1 as literally stated is false at `elapsed = d`: with 200 remaining
and exactly 200 elapsed, `checked_sub` yields `some 0`, not `None` — the
claim says `None` whenever `elapsed ≥ d`. -/
theorem claim_c1_cex :
    ((Timer.mk true .pomodoro (some 0) (some 200) 0 0).poll 200).1.remaining_time = some 0 ∧
    ((Timer.mk true .pomodoro (some 0) (some 200) 0 0).poll 200).1.remaining_time ≠
      Option.none := by
  refine ⟨by decide, by decide⟩

/-- C6 (amended): the transition branch of `poll` can never see the
`None` variant, since `next` never produces it; the notification body
uses the human-readable names "pomodoro", "short break" and "long break";
in the dead `None` arm the code does not signal a fatal error — it
builds the ordinary placeholder body "none? how did this happen?" and
continues. -/
theorem claim_c6 :
    (∀ (s : TimerState) (bc : Nat), (s.next bc).1 ≠ TimerState.none) ∧
    (∀ (t : Timer) (now : Nat), t.running = true → t.remaining_time = Option.none →
      ((t.poll now).2 = [{ summary := "pomod: time is up"
                           body := "next up: " ++ pollBodyName (t.poll now).1.state }] ∧
       (t.poll now).1.state ≠ TimerState.none)) ∧
    pollBodyName .pomodoro = "pomodoro" ∧
    pollBodyName .shortBreak = "short break" ∧
    pollBodyName .longBreak = "long break" ∧
    pollBodyName .none = "none? how did this happen?" := by
  refine ⟨next_fst_ne_none, ?_, rfl, rfl, rfl, rfl⟩
  intro t now hrun hrem
  unfold Timer.poll
  rw [hrun, hrem]
  refine ⟨by simp, ?_⟩
  have h := next_fst_ne_none t.state t.break_counter
  simpa [Timer.begin_next_state] using h

/-- Witness for the transition part of C6 on a concrete exhausted timer. -/
theorem claim_c6_witness :
    ((Timer.mk true .shortBreak (some 0) Option.none 3 1).poll 9).2 =
      [{ summary := "pomod: time is up"
         body := "next up: " ++
           pollBodyName ((Timer.mk true .shortBreak (some 0) Option.none 3 1).poll 9).1.state }] ∧
    ((Timer.mk true .shortBreak (some 0) Option.none 3 1).poll 9).1.state ≠ TimerState.none :=
  claim_c6.2.1 (Timer.mk true .shortBreak (some 0) Option.none 3 1) 9 rfl rfl

/-- C6 as literally stated is false: at the placeholder state the code
produces the ordinary notification body "none? how did this happen?"
rather than signaling an internal fatal error. -/
theorem claim_c6_cex :
    pollBodyName TimerState.none = "none? how did this happen?" ∧
    "next up: " ++ pollBodyName TimerState.none = "next up: none? how did this happen?" := by
  refine ⟨rfl, rfl⟩
